import Mathlib

/-!
# Client-side session/token lifecycle of the Email AI Assistant client

Shallow embedding of the token store, session restorer, identity fetch,
logout and redirect-completion handler of the repository
(`src/context/AuthContext.tsx` and `src/pages/AuthCallback.tsx`).

Modelling conventions:

* Browser storage is modelled per key, one `Option String` field of the
  application state for each key the code uses:
  `localStorage["token"]` is `localToken`,
  `localStorage["token_timestamp"]` is `localTimestamp`,
  `sessionStorage["token_backup"]` is `sessionBackup`.
  The debug-log key `auth_debug_logs` is written only by `debugLog`, which
  wraps its own storage access in a `try/catch` and is observed by no claim;
  `debugLog` is therefore modelled as a no-op.
* Per the Web Storage specification, only `setItem` may throw
  (`QuotaExceededError`); `getItem` and `removeItem` are total.  A quota
  failure is a property of a whole store during one synchronous run, so the
  fault model carries one flag per store: when the flag is set every
  `setItem` on that store throws.
* Network calls are modelled by an oracle (`World`) fixing the outcome of
  each round trip.  A throwing `await` is represented by the corresponding
  outcome constructor; JSON parsing failures of the `fetch` reply land in
  the same inner `catch` as a rejected `fetch` and are folded into
  `networkError`.
* Each source function is embedded as its `try`-block body, which returns
  `JsOut.thrown` when an exception escapes it (carrying the state and event
  trace at the point of the throw), plus a wrapper applying the source's
  `catch`/`finally` clauses.
* JavaScript truthiness tests on strings (`if (!token)`) are modelled by
  `isFalsy`, true for `none` (null/undefined) and for the empty string.
* Every operation also returns the list of observable events it performed,
  in execution order, so that temporal claims (ordering of writes, reads,
  requests and navigations) are statable.
-/

/-- Server-confirmed user profile (`interface User` of AuthContext.tsx). -/
structure User where
  id : String
  name : String
  email : String
  authProvider : String
  googleAccessToken : Option String := none
  microsoftAccessToken : Option String := none
deriving DecidableEq, Repr

/-- Application state: the React component state of `AuthProvider`
(`user`, `loading`, `error`, `tokenSet`), the storage keys used by the code
and the axios default `Authorization` header. -/
structure AppState where
  user : Option User
  loading : Bool
  error : Option String
  tokenSet : Bool
  localToken : Option String
  localTimestamp : Option String
  sessionBackup : Option String
  authHeader : Option String
deriving DecidableEq, Repr

/-- Storage fault configuration: whether `setItem` throws on each store. -/
structure StorageFaults where
  localSetThrows : Bool
  sessionSetThrows : Bool
deriving DecidableEq, Repr

/-- Outcome of the `fetch` round trip to `GET /api/auth/me`:
an HTTP 2xx reply with parsed envelope `{success, user}`, a non-2xx reply
with its status, or a rejected `fetch` (network failure / JSON failure). -/
inductive MeFetchResult where
  | ok (success : Bool) (user : Option User)
  | httpError (status : Nat)
  | networkError
deriving DecidableEq, Repr

/-- Outcome of the axios fallback call to `GET /api/auth/me`
(axios rejects on any non-2xx status as well as on network failure,
carrying an error message). -/
inductive AxiosMeResult where
  | ok (success : Bool) (user : Option User)
  | error (msg : String)
deriving DecidableEq, Repr

/-- Outcome of the `GET /api/auth/logout` round trip. -/
inductive LogoutCallResult where
  | ok
  | error
deriving DecidableEq, Repr

/-- The environment of one synchronous run: storage faults, the outcome of
each network round trip and the current clock value (`Date.now()`). -/
structure World where
  faults : StorageFaults
  me : MeFetchResult
  axiosMe : AxiosMeResult
  logoutCall : LogoutCallResult
  now : String
deriving DecidableEq, Repr

/-- Observable events of one run, in execution order. -/
inductive Event where
  | localWrite (key value : String)
  | localRead (key : String) (result : Option String)
  | localRemove (key : String)
  | sessionWrite (key value : String)
  | sessionRead (key : String) (result : Option String)
  | sessionRemove (key : String)
  | meRequest (bearer : String)
  | axiosMeRequest
  | logoutRequest
  | navigate (path : String)
deriving DecidableEq, Repr

/-- Result of a JavaScript computation: it either completes normally or an
exception escapes it (`thrown`); both carry the state reached and the events
performed so far. -/
inductive JsOut (α : Type) where
  | normal (a : α)
  | thrown (a : α)
deriving DecidableEq, Repr

/-- The carried value, whether the computation completed or threw. -/
def JsOut.val {α : Type} : JsOut α → α
  | .normal a => a
  | .thrown a => a

/-- True iff no exception escaped the computation. -/
def JsOut.isNormal {α : Type} : JsOut α → Bool
  | .normal _ => true
  | .thrown _ => false

/-- JavaScript string truthiness test on a nullable string:
`!x` is true for null/undefined and for the empty string. -/
def isFalsy : Option String → Bool
  | none => true
  | some s => s == ""

/-- `try`-block body of `setToken` (AuthContext.tsx lines 76-94): write the
token to `localStorage["token"]`, copy it to `sessionStorage["token_backup"]`,
record `localStorage["token_timestamp"]`, install the axios bearer header and
toggle the `tokenSet` flag.  A throwing `setItem` aborts the remainder,
keeping the writes already performed.  (The timestamp write is on the same
store as the first write, so under the per-store fault model it cannot be the
first one to throw.) -/
def setTokenBody (w : World) (s : AppState) (token : String) :
    JsOut (AppState × List Event) :=
  if w.faults.localSetThrows then .thrown (s, []) else
  let s1 := { s with localToken := some token }
  if w.faults.sessionSetThrows then .thrown (s1, [.localWrite "token" token]) else
  let s2 := { s1 with
    sessionBackup := some token
    localTimestamp := some w.now
    authHeader := some ("Bearer " ++ token)
    tokenSet := !s.tokenSet }
  .normal (s2, [.localWrite "token" token, .sessionWrite "token_backup" token,
                .localWrite "token_timestamp" w.now])

/-- `setToken` (AuthContext.tsx lines 66-98): a falsy token is ignored
(`if (!token) return`); otherwise the body runs under a `catch` that only
logs, so a storage failure leaves the state as mutated so far. -/
def setToken (w : World) (s : AppState) (token : String) :
    JsOut (AppState × List Event) :=
  if token == "" then .normal (s, [])
  else
    match setTokenBody w s token with
    | .normal r => .normal r
    | .thrown r => .normal r

/-- `try`-block body of `fetchCurrentUser` (AuthContext.tsx lines 145-212),
including the inner `try/catch` around the `fetch` call: set `loading`, read
the token back from `localStorage["token"]` (early return when falsy), issue
the `fetch` to `/api/auth/me`; on a 2xx reply apply the envelope (populate
`user` on `success:true`, set `error` on `success:false`); on a non-2xx
status do nothing further — the 401/403 branch only logs, the token removal
is commented out in the source; on a rejected `fetch` fall back to axios,
whose rejection escapes this body to the outer `catch`. -/
def fetchMeBody (w : World) (s : AppState) : JsOut (AppState × List Event) :=
  let s0 := { s with loading := true }
  let tok := s0.localToken
  let ev0 : List Event := [.localRead "token" tok]
  if isFalsy tok then
    .normal ({ s0 with loading := false }, ev0)
  else
    let bearer := "Bearer " ++ tok.getD ""
    match w.me with
    | .ok success u =>
        let s1 := if success then { s0 with user := u }
                  else { s0 with error := some "Failed to get user data" }
        .normal (s1, ev0 ++ [.meRequest bearer])
    | .httpError _ =>
        .normal (s0, ev0 ++ [.meRequest bearer])
    | .networkError =>
        match w.axiosMe with
        | .ok success u =>
            let s1 := if success then { s0 with user := u } else s0
            .normal (s1, ev0 ++ [.meRequest bearer, .axiosMeRequest])
        | .error _ =>
            .thrown (s0, ev0 ++ [.meRequest bearer, .axiosMeRequest])

/-- The message stored by the outer `catch` of `fetchCurrentUser`:
`err.message || "Failed to fetch user data"`.  The only throw that reaches
that `catch` is the axios fallback rejection, whose message is in the
oracle. -/
def fetchErrMsg (w : World) : String :=
  match w.axiosMe with
  | .error msg => if msg == "" then "Failed to fetch user data" else msg
  | .ok _ _ => "Failed to fetch user data"

/-- `fetchCurrentUser` (AuthContext.tsx lines 142-224): the body under the
outer `catch` (which records the error message and deliberately keeps the
token) and the `finally` clause (`setLoading(false)`). -/
def fetchCurrentUser (w : World) (s : AppState) : JsOut (AppState × List Event) :=
  match fetchMeBody w s with
  | .normal (s1, e) => .normal ({ s1 with loading := false }, e)
  | .thrown (s1, e) =>
      .normal ({ s1 with error := some (fetchErrMsg w), loading := false }, e)

/-- `try`-block body of `checkAuth` (AuthContext.tsx lines 105-131): read
`localStorage["token"]`; when falsy consult `sessionStorage["token_backup"]`;
a truthy backup is promoted to canonical (a `setItem`, which may throw and
escape to the `catch`), the bearer header installed and the identity fetch
run; with no token anywhere just clear `loading`; a truthy canonical token
installs the bearer header and runs the identity fetch. -/
def checkAuthBody (w : World) (s : AppState) : JsOut (AppState × List Event) :=
  let tok := s.localToken
  let ev0 : List Event := [.localRead "token" tok]
  if isFalsy tok then
    let b := s.sessionBackup
    let ev1 := ev0 ++ [Event.sessionRead "token_backup" b]
    if isFalsy b then
      .normal ({ s with loading := false }, ev1)
    else
      let bt := b.getD ""
      if w.faults.localSetThrows then .thrown (s, ev1) else
      let s1 := { s with
        localToken := some bt
        authHeader := some ("Bearer " ++ bt) }
      match fetchCurrentUser w s1 with
      | .normal (s2, e) => .normal (s2, ev1 ++ [Event.localWrite "token" bt] ++ e)
      | .thrown (s2, e) => .thrown (s2, ev1 ++ [Event.localWrite "token" bt] ++ e)
  else
    let s1 := { s with authHeader := some ("Bearer " ++ tok.getD "") }
    match fetchCurrentUser w s1 with
    | .normal (s2, e) => .normal (s2, ev0 ++ e)
    | .thrown (s2, e) => .thrown (s2, ev0 ++ e)

/-- `checkAuth` (AuthContext.tsx lines 101-139), the session restorer run by
the effect at mount and on every `tokenSet` toggle: the body under a `catch`
whose handler is `setLoading(false)`. -/
def checkAuth (w : World) (s : AppState) : JsOut (AppState × List Event) :=
  match checkAuthBody w s with
  | .normal r => .normal r
  | .thrown (s1, e) => .normal ({ s1 with loading := false }, e)

/-- `try`-block body of `logout` (AuthContext.tsx lines 236-246): the
logout round trip (whose rejection escapes to the `catch`), then clear the
user, remove both stored token copies and the timestamp, and drop the axios
header. -/
def logoutBody (w : World) (s : AppState) : JsOut (AppState × List Event) :=
  match w.logoutCall with
  | .error => .thrown (s, [.logoutRequest])
  | .ok =>
      .normal ({ s with
          user := none
          localToken := none
          sessionBackup := none
          localTimestamp := none
          authHeader := none },
        [.logoutRequest, .localRemove "token", .sessionRemove "token_backup",
         .localRemove "token_timestamp"])

/-- `logout` (AuthContext.tsx lines 233-257): the body under a `catch` that
records an error message and then forces the logout on the client anyway
(clearing user, both stored token copies and the header — but, unlike the
success path, not the timestamp key). -/
def logout (w : World) (s : AppState) : JsOut (AppState × List Event) :=
  match logoutBody w s with
  | .normal r => .normal r
  | .thrown (s1, e) =>
      .normal ({ s1 with
          error := some "Failed to logout"
          user := none
          localToken := none
          sessionBackup := none
          authHeader := none },
        e ++ [.localRemove "token", .sessionRemove "token_backup"])

/-- `handleCallback` (AuthCallback.tsx lines 12-24): parse the `token` query
parameter; when truthy hand it to `setToken` and navigate to `/dashboard`;
otherwise navigate to `/login`.  (`setToken` has its own `catch` and never
throws, so the handler is total.) -/
def handleCallback (w : World) (s : AppState) (urlToken : Option String) :
    AppState × List Event :=
  if isFalsy urlToken then (s, [.navigate "/login"])
  else
    let r := (setToken w s (urlToken.getD "")).val
    (r.1, r.2 ++ [.navigate "/dashboard"])

/-- A `setToken` call followed by the session-restorer effect it triggers:
React runs the `checkAuth` effect only after the synchronous `setToken` call
has completed, and only when the `tokenSet` dependency actually changed
(the toggle is the last step of a fully successful `setToken`). -/
def setTokenThenRestore (w : World) (s : AppState) (t : String) :
    AppState × List Event :=
  let r1 := (setToken w s t).val
  if r1.1.tokenSet == s.tokenSet then r1
  else
    let r2 := (checkAuth w r1.1).val
    (r2.1, r1.2 ++ r2.2)

/-- The derived three-valued session state, as the routing layer computes it
(Login page: `loading` shows the spinner, a present `user` redirects to the
dashboard, otherwise the login form is shown). -/
inductive SessionState where
  | unknown
  | authenticated
  | unauthenticated
deriving DecidableEq, Repr

/-- Routing view of an application state. -/
def sessionState (s : AppState) : SessionState :=
  if s.loading then .unknown
  else if s.user.isSome then .authenticated
  else .unauthenticated

/-- Initial `AuthProvider` state: no user, `loading` true, nothing stored. -/
def initState : AppState :=
  { user := none, loading := true, error := none, tokenSet := false,
    localToken := none, localTimestamp := none, sessionBackup := none,
    authHeader := none }

/-- Fault-free storage. -/
def noFaults : StorageFaults := { localSetThrows := false, sessionSetThrows := false }

/-- A convenient fault-free world whose identity fetch succeeds. -/
def okWorld (u : User) : World :=
  { faults := noFaults, me := .ok true (some u), axiosMe := .ok true (some u),
    logoutCall := .ok, now := "1700000000000" }

/-- A sample user for concrete runs. -/
def sampleUser : User :=
  { id := "u1", name := "Ada", email := "ada@example.com", authProvider := "google" }

/-- True iff every navigation to `/dashboard` in the trace comes after a read
of `localStorage["token"]` returning the expected value `t` (once such a
confirming read has happened the requirement is met). -/
def confirmedBeforeDashboard (t : String) : List Event → Bool
  | [] => true
  | Event.navigate p :: rest =>
      if p == "/dashboard" then false else confirmedBeforeDashboard t rest
  | Event.localRead k v :: rest =>
      if k == "token" && v == some t then true else confirmedBeforeDashboard t rest
  | _ :: rest => confirmedBeforeDashboard t rest

/-- True iff every identity-fetch request in the trace comes after a read of
`localStorage["token"]` returning the expected value `t`. -/
def confirmedBeforeFetch (t : String) : List Event → Bool
  | [] => true
  | Event.meRequest _ :: _ => false
  | Event.localRead k v :: rest =>
      if k == "token" && v == some t then true else confirmedBeforeFetch t rest
  | _ :: rest => confirmedBeforeFetch t rest

/-- True iff the trace contains any network round trip. -/
def hasNetworkCall : List Event → Bool
  | [] => false
  | Event.meRequest _ :: _ => true
  | Event.axiosMeRequest :: _ => true
  | Event.logoutRequest :: _ => true
  | _ :: rest => hasNetworkCall rest

/-- True iff the trace contains any read of local (canonical) storage. -/
def hasTokenReadback : List Event → Bool
  | [] => false
  | Event.localRead _ _ :: _ => true
  | _ :: rest => hasTokenReadback rest

/-- The identity fetch failed with something other than an authentication
rejection: a non-2xx status other than 401/403, or a rejected `fetch` whose
axios fallback also rejected. -/
def isNonAuthFailure (w : World) : Bool :=
  match w.me with
  | .httpError status => !(status == 401) && !(status == 403)
  | .networkError =>
      match w.axiosMe with
      | .error _ => true
      | .ok _ _ => false
  | .ok _ _ => false

/-- A fault-free world whose identity fetch returns HTTP 401
(the axios fallback would also reject with a 401). -/
def rejectWorld : World :=
  { faults := noFaults, me := .httpError 401,
    axiosMe := .error "Request failed with status code 401",
    logoutCall := .ok, now := "0" }

/-- A fault-free world whose identity fetch returns HTTP 500. -/
def serverErrWorld : World :=
  { faults := noFaults, me := .httpError 500,
    axiosMe := .error "Request failed with status code 500",
    logoutCall := .ok, now := "0" }

/-- An authenticated state holding token `"abc"` in both stores. -/
def authedState : AppState :=
  { user := some sampleUser, loading := false, error := none, tokenSet := true,
    localToken := some "abc", localTimestamp := some "0",
    sessionBackup := some "abc", authHeader := some "Bearer abc" }

/-- A fresh state whose only credential is a backup copy. -/
def backupOnlyState : AppState :=
  { initState with sessionBackup := some "xyz" }

/-- A world where every `sessionStorage.setItem` throws (session quota
exhausted) while local storage works. -/
def backupQuotaWorld : World :=
  { faults := { localSetThrows := false, sessionSetThrows := true },
    me := .networkError, axiosMe := .error "Network Error",
    logoutCall := .ok, now := "7" }

/-- A state holding an older token `"oldtok"` in both stores. -/
def oldTokenState : AppState :=
  { initState with localToken := some "oldtok", sessionBackup := some "oldtok" }

/-- A sanity lemma: the fault model is not degenerate — the `try`-block body
of `setToken` really does throw under a local-storage quota failure (the
exception is then swallowed by the wrapper `setToken`). -/
theorem setTokenBody_throws_on_quota :
    (setTokenBody
      { faults := { localSetThrows := true, sessionSetThrows := false },
        me := .networkError, axiosMe := .error "", logoutCall := .ok, now := "0" }
      initState "t").isNormal = false := by
  decide

/-- C1: at the failing input — an authenticated session holding token `"abc"`
in both canonical and backup storage, with `GET /api/auth/me` now answering
HTTP 401 — the identity fetch keeps both stored copies of the token and
leaves the user identity populated (the removal on 401/403 is commented out
in the source), contradicting the claim that both storages are empty and the
session is unauthenticated afterward. -/
theorem c1_code_keeps_credentials_on_401 :
    (fetchCurrentUser rejectWorld authedState).val.1.localToken = some "abc"
    ∧ (fetchCurrentUser rejectWorld authedState).val.1.sessionBackup = some "abc"
    ∧ (fetchCurrentUser rejectWorld authedState).val.1.user = some sampleUser
    ∧ sessionState (fetchCurrentUser rejectWorld authedState).val.1
        = SessionState.authenticated := by
  decide

/-- C2 counterexample: on the redirect URL `/auth-callback?token=abc123` the
handler navigates to the dashboard without ever reading the token back from
canonical storage, so the claimed read-back confirmation before navigation
does not hold. -/
theorem c2_counterexample :
    confirmedBeforeDashboard "abc123"
      (handleCallback (okWorld sampleUser) initState (some "abc123")).2 = false := by
  decide

/-- C2 amended: for every redirect URL with a nonempty token parameter the
handler hands the token to `setToken` and navigates to the dashboard
unconditionally and immediately — its trace contains the dashboard
navigation and no read of canonical storage at all. -/
theorem c2_amended_navigates_without_readback (w : World) (s : AppState)
    (t : String) (h : t ≠ "") :
    Event.navigate "/dashboard" ∈ (handleCallback w s (some t)).2
    ∧ hasTokenReadback (handleCallback w s (some t)).2 = false := by
  have hb : (t == "") = false := by simpa using h
  cases hl : w.faults.localSetThrows <;> cases hs : w.faults.sessionSetThrows <;>
    simp [handleCallback, setToken, setTokenBody, isFalsy, hb, hl, hs,
      JsOut.val, hasTokenReadback]

/-- C2 amended, witness at `t = "abc123"`. -/
theorem c2_amended_witness :
    "abc123" ≠ ""
    ∧ (Event.navigate "/dashboard"
        ∈ (handleCallback (okWorld sampleUser) initState (some "abc123")).2
      ∧ hasTokenReadback
          (handleCallback (okWorld sampleUser) initState (some "abc123")).2 = false) :=
  ⟨by decide,
   c2_amended_navigates_without_readback (okWorld sampleUser) initState "abc123"
     (by decide)⟩

/-- C4: for every nonempty token `t`, when storage is fault-free `setToken t`
leaves canonical storage (`localStorage["token"]`) holding `t` and installs
the bearer form of `t` as the default outbound Authorization header. -/
theorem c4_setToken_persists_and_sets_header (w : World) (s : AppState)
    (t : String) (h : t ≠ "")
    (hl : w.faults.localSetThrows = false) (hs : w.faults.sessionSetThrows = false) :
    (setToken w s t).val.1.localToken = some t
    ∧ (setToken w s t).val.1.authHeader = some ("Bearer " ++ t) := by
  have hb : (t == "") = false := by simpa using h
  simp [setToken, setTokenBody, hb, hl, hs, JsOut.val]

/-- C4 witness at `t = "abc123"` in a fault-free world. -/
theorem c4_witness :
    "abc123" ≠ ""
    ∧ (okWorld sampleUser).faults.localSetThrows = false
    ∧ (okWorld sampleUser).faults.sessionSetThrows = false
    ∧ ((setToken (okWorld sampleUser) initState "abc123").val.1.localToken
        = some "abc123"
      ∧ (setToken (okWorld sampleUser) initState "abc123").val.1.authHeader
        = some ("Bearer " ++ "abc123")) :=
  ⟨by decide, by decide, by decide,
   c4_setToken_persists_and_sets_header (okWorld sampleUser) initState "abc123"
     (by decide) (by decide) (by decide)⟩

/-- C7: logout is best-effort — whether the `GET /api/auth/logout` round
trip succeeds or fails, afterward the user identity is cleared, the
canonical token and the backup token are removed from storage, and the
default outbound Authorization credential is removed. -/
theorem c7_logout_clears_credentials (w : World) (s : AppState) :
    (logout w s).val.1.user = none
    ∧ (logout w s).val.1.localToken = none
    ∧ (logout w s).val.1.sessionBackup = none
    ∧ (logout w s).val.1.authHeader = none := by
  cases h : w.logoutCall <;> simp [logout, logoutBody, h, JsOut.val]

/-- C9: for every fault configuration and every network outcome, none of the
token/session operations lets an exception escape to the surrounding
application — `setToken`, the session restorer, the identity fetch and
logout all complete normally on every path. -/
theorem c9_no_uncaught_exceptions (w : World) (s : AppState) (t : String) :
    (setToken w s t).isNormal = true
    ∧ (checkAuth w s).isNormal = true
    ∧ (fetchCurrentUser w s).isNormal = true
    ∧ (logout w s).isNormal = true := by
  refine ⟨?_, ?_, ?_, ?_⟩
  · cases ht : (t == "") <;>
      simp only [setToken, ht, if_true, if_false, Bool.false_eq_true, ite_false, ite_true]
    · cases setTokenBody w s t <;> simp [JsOut.isNormal]
    · simp [JsOut.isNormal]
  · cases h : checkAuthBody w s <;> simp [checkAuth, h, JsOut.isNormal]
  · cases h : fetchMeBody w s <;> simp [fetchCurrentUser, h, JsOut.isNormal]
  · cases h : logoutBody w s <;> simp [logout, h, JsOut.isNormal]

/-- C10 counterexample: starting from a state holding `"oldtok"` in both
stores, `setToken "newtok"` in a world where the backup (`sessionStorage`)
write throws ends with canonical storage holding `"newtok"` while the backup
still holds `"oldtok"` — `setToken` wrote exactly one of the two, so the
claimed never-writes-only-one invariant is false. -/
theorem c10_counterexample :
    (setToken backupQuotaWorld oldTokenState "newtok").val.1.localToken = some "newtok"
    ∧ (setToken backupQuotaWorld oldTokenState "newtok").val.1.sessionBackup
        = some "oldtok" := by
  decide

/-- C10 amended: after `setToken t` with nonempty `t` in which all storage
writes succeed, the backup store holds the same value `t` as canonical
storage and a token timestamp is recorded; the writes are not atomic —
when only the backup write throws, the error is caught and canonical holds
`t` while the backup keeps its previous value. -/
theorem c10_amended_backup_mirrors_canonical (w : World) (s : AppState)
    (t : String) (h : t ≠ "") :
    (w.faults.localSetThrows = false → w.faults.sessionSetThrows = false →
      (setToken w s t).val.1.localToken = some t
      ∧ (setToken w s t).val.1.sessionBackup = some t
      ∧ (setToken w s t).val.1.localTimestamp = some w.now)
    ∧ (w.faults.localSetThrows = false → w.faults.sessionSetThrows = true →
      (setToken w s t).val.1.localToken = some t
      ∧ (setToken w s t).val.1.sessionBackup = s.sessionBackup) := by
  have hb : (t == "") = false := by simpa using h
  constructor
  · intro hl hs
    simp [setToken, setTokenBody, hb, hl, hs, JsOut.val]
  · intro hl hs
    simp [setToken, setTokenBody, hb, hl, hs, JsOut.val]

/-- C10 amended, witness at `t = "abc123"`: the success clause in a
fault-free world. -/
theorem c10_amended_witness :
    "abc123" ≠ ""
    ∧ (((okWorld sampleUser).faults.localSetThrows = false →
        (okWorld sampleUser).faults.sessionSetThrows = false →
        (setToken (okWorld sampleUser) initState "abc123").val.1.localToken
          = some "abc123"
        ∧ (setToken (okWorld sampleUser) initState "abc123").val.1.sessionBackup
          = some "abc123"
        ∧ (setToken (okWorld sampleUser) initState "abc123").val.1.localTimestamp
          = some (okWorld sampleUser).now)
      ∧ ((okWorld sampleUser).faults.localSetThrows = false →
        (okWorld sampleUser).faults.sessionSetThrows = true →
        (setToken (okWorld sampleUser) initState "abc123").val.1.localToken
          = some "abc123"
        ∧ (setToken (okWorld sampleUser) initState "abc123").val.1.sessionBackup
          = initState.sessionBackup)) :=
  ⟨by decide,
   c10_amended_backup_mirrors_canonical (okWorld sampleUser) initState "abc123"
     (by decide)⟩

/-- C3: when the identity fetch fails with a non-authentication error (an
HTTP status other than 401/403, or a network failure whose axios fallback
also fails), canonical storage still holds the pre-call token, the user
identity is untouched (nobody is logged out), and an authenticated session
stays authenticated. -/
theorem c3_nonauth_failure_keeps_session (w : World) (s : AppState) (t : String)
    (ht : s.localToken = some t) (hne : t ≠ "") (hf : isNonAuthFailure w = true) :
    (fetchCurrentUser w s).val.1.localToken = some t
    ∧ (fetchCurrentUser w s).val.1.user = s.user
    ∧ (s.user.isSome = true →
        sessionState (fetchCurrentUser w s).val.1 = SessionState.authenticated) := by
  have hb : isFalsy (some t) = false := by simpa [isFalsy] using hne
  unfold isNonAuthFailure at hf
  cases hme : w.me with
  | ok succ u => rw [hme] at hf; simp at hf
  | httpError st =>
      refine ⟨?_, ?_, ?_⟩ <;>
        simp [fetchCurrentUser, fetchMeBody, ht, hb, hme, JsOut.val, sessionState,
          Option.isSome_iff_ne_none]
  | networkError =>
      rw [hme] at hf
      cases hax : w.axiosMe with
      | ok succ u => rw [hax] at hf; simp at hf
      | error msg =>
          refine ⟨?_, ?_, ?_⟩ <;>
            simp [fetchCurrentUser, fetchMeBody, ht, hb, hme, hax, JsOut.val,
              sessionState, Option.isSome_iff_ne_none]

/-- C3 witness: stored token `"abc"`, identity fetch answers HTTP 500. -/
theorem c3_witness :
    authedState.localToken = some "abc"
    ∧ "abc" ≠ ""
    ∧ isNonAuthFailure serverErrWorld = true
    ∧ ((fetchCurrentUser serverErrWorld authedState).val.1.localToken = some "abc"
      ∧ (fetchCurrentUser serverErrWorld authedState).val.1.user = authedState.user
      ∧ (authedState.user.isSome = true →
          sessionState (fetchCurrentUser serverErrWorld authedState).val.1
            = SessionState.authenticated)) :=
  ⟨by decide, by decide, by decide,
   c3_nonauth_failure_keeps_session serverErrWorld authedState "abc"
     (by decide) (by decide) (by decide)⟩

/-- C5: on a run of the session restorer, when the canonical token is absent
(falsy): a nonempty backup value is promoted to canonical storage and the
identity fetch proceeds with it; when the backup is also absent the restorer
performs no network call, clears `loading`, leaves the user untouched and —
the user being absent — the derived session state is unauthenticated. -/
theorem c5_restorer_promotes_backup_or_stops (w : World) (s : AppState)
    (h0 : isFalsy s.localToken = true) :
    (∀ b, s.sessionBackup = some b → b ≠ "" → w.faults.localSetThrows = false →
      (checkAuth w s).val.1.localToken = some b
      ∧ Event.localWrite "token" b ∈ (checkAuth w s).val.2
      ∧ Event.meRequest ("Bearer " ++ b) ∈ (checkAuth w s).val.2)
    ∧ (isFalsy s.sessionBackup = true →
      hasNetworkCall (checkAuth w s).val.2 = false
      ∧ (checkAuth w s).val.1.loading = false
      ∧ (checkAuth w s).val.1.user = s.user
      ∧ (s.user = none →
          sessionState (checkAuth w s).val.1 = SessionState.unauthenticated)) := by
  constructor
  · intro b hbk hbne hl
    have hbf : isFalsy (some b) = false := by simpa [isFalsy] using hbne
    cases hme : w.me with
    | ok succ u =>
        cases succ <;>
          simp [checkAuth, checkAuthBody, fetchCurrentUser, fetchMeBody,
            h0, hbk, hbf, hl, hme, JsOut.val]
    | httpError st =>
        simp [checkAuth, checkAuthBody, fetchCurrentUser, fetchMeBody,
          h0, hbk, hbf, hl, hme, JsOut.val]
    | networkError =>
        cases hax : w.axiosMe with
        | ok succ u =>
            cases succ <;>
              simp [checkAuth, checkAuthBody, fetchCurrentUser, fetchMeBody,
                h0, hbk, hbf, hl, hme, hax, JsOut.val]
        | error msg =>
            simp [checkAuth, checkAuthBody, fetchCurrentUser, fetchMeBody,
              h0, hbk, hbf, hl, hme, hax, JsOut.val]
  · intro hbk
    refine ⟨?_, ?_, ?_, ?_⟩ <;>
      simp [checkAuth, checkAuthBody, h0, hbk, JsOut.val, hasNetworkCall,
        sessionState]

/-- C5 witness: the promotion clause at backup `"xyz"` and the stop clause at
the empty initial state. -/
theorem c5_witness :
    (isFalsy backupOnlyState.localToken = true
      ∧ backupOnlyState.sessionBackup = some "xyz"
      ∧ "xyz" ≠ ""
      ∧ (okWorld sampleUser).faults.localSetThrows = false
      ∧ ((checkAuth (okWorld sampleUser) backupOnlyState).val.1.localToken = some "xyz"
        ∧ Event.localWrite "token" "xyz"
            ∈ (checkAuth (okWorld sampleUser) backupOnlyState).val.2
        ∧ Event.meRequest ("Bearer " ++ "xyz")
            ∈ (checkAuth (okWorld sampleUser) backupOnlyState).val.2))
    ∧ (isFalsy initState.localToken = true
      ∧ isFalsy initState.sessionBackup = true
      ∧ (hasNetworkCall (checkAuth (okWorld sampleUser) initState).val.2 = false
        ∧ (checkAuth (okWorld sampleUser) initState).val.1.loading = false
        ∧ (checkAuth (okWorld sampleUser) initState).val.1.user = initState.user
        ∧ (initState.user = none →
            sessionState (checkAuth (okWorld sampleUser) initState).val.1
              = SessionState.unauthenticated))) :=
  ⟨⟨by decide, by decide, by decide, by decide,
    (c5_restorer_promotes_backup_or_stops (okWorld sampleUser) backupOnlyState
      (by decide)).1 "xyz" (by decide) (by decide) (by decide)⟩,
   ⟨by decide, by decide,
    (c5_restorer_promotes_backup_or_stops (okWorld sampleUser) initState
      (by decide)).2 (by decide)⟩⟩

/-- C6: with fault-free storage, a `setToken t` call (nonempty `t`) has its
canonical write observably complete before the session-restorer effect it
triggers runs: `localStorage["token"]` already holds `t` when `setToken`
returns, the restorer's own read of canonical storage returns `t` before any
identity-fetch request appears in the combined trace, and the triggered
fetch carries the bearer form of `t`. -/
theorem c6_persist_before_triggered_fetch (w : World) (s : AppState)
    (t : String) (h : t ≠ "")
    (hl : w.faults.localSetThrows = false) (hs : w.faults.sessionSetThrows = false) :
    (setToken w s t).val.1.localToken = some t
    ∧ confirmedBeforeFetch t (setTokenThenRestore w s t).2 = true
    ∧ Event.meRequest ("Bearer " ++ t) ∈ (setTokenThenRestore w s t).2 := by
  have hb : (t == "") = false := by simpa using h
  have hbf : isFalsy (some t) = false := by simpa [isFalsy] using h
  refine ⟨by simp [setToken, setTokenBody, hb, hl, hs, JsOut.val], ?_, ?_⟩ <;>
  · cases hts : s.tokenSet <;> cases hme : w.me <;> cases hax : w.axiosMe <;>
      simp [setTokenThenRestore, setToken, setTokenBody, checkAuth,
        checkAuthBody, fetchCurrentUser, fetchMeBody, hb, hbf, hl, hs, hts,
        hme, hax, JsOut.val, confirmedBeforeFetch]

/-- C6 witness at `t = "abc123"` in a fault-free world. -/
theorem c6_witness :
    "abc123" ≠ ""
    ∧ (okWorld sampleUser).faults.localSetThrows = false
    ∧ (okWorld sampleUser).faults.sessionSetThrows = false
    ∧ ((setToken (okWorld sampleUser) initState "abc123").val.1.localToken
        = some "abc123"
      ∧ confirmedBeforeFetch "abc123"
          (setTokenThenRestore (okWorld sampleUser) initState "abc123").2 = true
      ∧ Event.meRequest ("Bearer " ++ "abc123")
          ∈ (setTokenThenRestore (okWorld sampleUser) initState "abc123").2) :=
  ⟨by decide, by decide, by decide,
   c6_persist_before_triggered_fetch (okWorld sampleUser) initState "abc123"
     (by decide) (by decide) (by decide)⟩

/-- C8: the session restorer is idempotent for a stable valid token — with
`localStorage["token"]` holding a nonempty `t` that the backend accepts
(`success:true` with a fixed user), running `checkAuth` twice in succession
ends in exactly the state one run ends in. -/
theorem c8_restorer_idempotent (w : World) (s : AppState) (t : String) (u : User)
    (ht : s.localToken = some t) (hne : t ≠ "")
    (hok : w.me = .ok true (some u)) :
    (checkAuth w (checkAuth w s).val.1).val.1 = (checkAuth w s).val.1 := by
  have hbf : isFalsy (some t) = false := by simpa [isFalsy] using hne
  cases s with
  | mk su sl se sts slt slts ssb sah =>
      simp only at ht
      simp [checkAuth, checkAuthBody, fetchCurrentUser, fetchMeBody, ht, hbf,
        hok, JsOut.val]

/-- C8 witness: token `"abc"` accepted by the backend with `sampleUser`. -/
theorem c8_witness :
    authedState.localToken = some "abc"
    ∧ "abc" ≠ ""
    ∧ (okWorld sampleUser).me = .ok true (some sampleUser)
    ∧ (checkAuth (okWorld sampleUser)
        (checkAuth (okWorld sampleUser) authedState).val.1).val.1
      = (checkAuth (okWorld sampleUser) authedState).val.1 :=
  ⟨by decide, by decide, by decide,
   c8_restorer_idempotent (okWorld sampleUser) authedState "abc" sampleUser
     (by decide) (by decide) (by decide)⟩
